import Mathlib

/-!
# HexSnake: board topology and game-state transition engine

A shallow embedding of the core of `src/App.tsx` of the HexSnake repository:
hexagonal board validity, the three wrap axes with their mirror transforms and
heading-reflection tables, portal-exit detection (`getExitInfo`), food
generation (`generateFood`), and the per-tick state transition executed by the
game loop.  Randomness (the session's wrap axis, food placement indices) and
the wall-clock timestamp are passed as explicit parameters; the food-eaten
visual event stores the head's hex coordinate instead of its pixel projection,
which is rendering glue outside the simulation core.
-/

namespace HexSnake

/-- `GRID_RADIUS` from the source: the fixed board radius. -/
def GRID_RADIUS : Int := 15

/-- Axial hex coordinate `{q, r}`. -/
structure HexCoord where
  q : Int
  r : Int
deriving DecidableEq

/-- The three symmetric wrap-edge pairs of `WRAP_EDGE_PAIRS`, identified by
their `name` field. -/
inductive WrapAxis
  | horizontal
  | diagonal1
  | diagonal2
deriving DecidableEq, Fintype

/-- A snake body segment: a cell plus the face (`side`) it lives on. -/
structure SnakeSegment where
  cell : HexCoord
  side : Nat
deriving DecidableEq

instance : Inhabited SnakeSegment := ⟨⟨⟨0, 0⟩, 0⟩⟩

/-- A food item: a cell plus a face. -/
structure Food where
  cell : HexCoord
  side : Nat
deriving DecidableEq

/-- The transient food-eaten event (`eatEffect`): the head position at the
moment of eating plus a timestamp.  The source stores the pixel projection of
the head; we keep the hex coordinate, the projection being rendering glue. -/
structure EatEffect where
  cell : HexCoord
  timestamp : Nat
deriving DecidableEq

/-- The session state (`GameState` in the source). -/
structure GameState where
  snake : List SnakeSegment
  food : Food
  direction : Fin 6
  currentSide : Nat
  score : Nat
  gameOver : Bool
  isPlaying : Bool
  eatEffect : Option EatEffect
  wrapImmunity : Nat
deriving DecidableEq

/-- `DIRECTION_VECTORS`: the unit offset of each of the six headings. -/
def directionVector (d : Fin 6) : HexCoord :=
  match d.val with
  | 0 => ⟨1, 0⟩
  | 1 => ⟨0, 1⟩
  | 2 => ⟨-1, 1⟩
  | 3 => ⟨-1, 0⟩
  | 4 => ⟨0, -1⟩
  | _ => ⟨1, -1⟩

/-- `getNextPosition`: the cell one step from `head` along `direction`. -/
def getNextPosition (head : HexCoord) (direction : Fin 6) : HexCoord :=
  ⟨head.q + (directionVector direction).q, head.r + (directionVector direction).r⟩

/-- `isValidPosition`: the on-board predicate
`|q| ≤ R ∧ |r| ≤ R ∧ |q+r| ≤ R`. -/
def isValidPosition (c : HexCoord) : Prop :=
  |c.q| ≤ GRID_RADIUS ∧ |c.r| ≤ GRID_RADIUS ∧ |c.q + c.r| ≤ GRID_RADIUS

instance (c : HexCoord) : Decidable (isValidPosition c) := by
  unfold isValidPosition; infer_instance

/-- `isWrapExit` specialised to an explicit axis: the two edge checks of the
axis's entry in `WRAP_EDGE_PAIRS`. -/
def isWrapExit (axis : WrapAxis) (c : HexCoord) : Prop :=
  match axis with
  | .horizontal => c.q = -GRID_RADIUS ∨ c.q = GRID_RADIUS
  | .diagonal1 => c.r = GRID_RADIUS ∨ c.r = -GRID_RADIUS
  | .diagonal2 => -c.q - c.r = GRID_RADIUS ∨ -c.q - c.r = -GRID_RADIUS

instance (axis : WrapAxis) (c : HexCoord) : Decidable (isWrapExit axis c) := by
  unfold isWrapExit; cases axis <;> infer_instance

/-- `isSameCoord`: componentwise equality of axial coordinates. -/
def isSameCoord (a b : HexCoord) : Prop :=
  a.q = b.q ∧ a.r = b.r

instance (a b : HexCoord) : Decidable (isSameCoord a b) := by
  unfold isSameCoord; infer_instance

theorem isSameCoord_iff_eq (a b : HexCoord) : isSameCoord a b ↔ a = b := by
  cases a; cases b
  simp [isSameCoord, HexCoord.mk.injEq]

/-- `isOnSnake`: some segment of `snake` occupies `(coord, side)`. -/
def isOnSnake (coord : HexCoord) (side : Nat) (snake : List SnakeSegment) : Prop :=
  ∃ seg ∈ snake, isSameCoord seg.cell coord ∧ seg.side = side

instance (coord : HexCoord) (side : Nat) (snake : List SnakeSegment) :
    Decidable (isOnSnake coord side snake) :=
  List.decidableBEx _ snake

/-- The axis-keyed mirror used for the head (lines 183–204) and for the food
(lines 373–391): `horizontal` reflects about `q = 0`, `diagonal1` about
`r = 0`, `diagonal2` about `s = -q-r = 0`. -/
def mirrorCoord (axis : WrapAxis) (c : HexCoord) : HexCoord :=
  match axis with
  | .horizontal => ⟨-c.q, c.r⟩
  | .diagonal1 => ⟨c.q, -c.r⟩
  | .diagonal2 => ⟨-c.r, -c.q⟩

/-- The center-ward nudge applied when the mirrored cell is off-board:
one step toward the origin along each coordinate of nonzero sign. -/
def centerNudge (c : HexCoord) : HexCoord :=
  ⟨c.q + (if c.q > 0 then -1 else if c.q < 0 then 1 else 0),
   c.r + (if c.r > 0 then -1 else if c.r < 0 then 1 else 0)⟩

/-- The portal target: the axis mirror, nudged once toward the center when
the mirror is off-board (lines 180–217). -/
def wrapTarget (axis : WrapAxis) (c : HexCoord) : HexCoord :=
  let m := mirrorCoord axis c
  if isValidPosition m then m else centerNudge m

/-- `getExitInfo`: `some target` exactly when stepping from `coord` along
`direction` leaves the board from a wrap-exit cell of the active axis
(`isWrap = true` with its `newCoord`); `none` otherwise. -/
def getExitInfo (axis : WrapAxis) (coord : HexCoord) (direction : Fin 6) :
    Option HexCoord :=
  if ¬ isValidPosition (getNextPosition coord direction) then
    if isWrapExit axis coord then some (wrapTarget axis coord) else none
  else none

/-- The outcome of one step, per spec §4.1 (`classifyStep`). -/
inductive StepOutcome
  | Normal
  | Blocked
  | Portal (mirroredCell : HexCoord)
deriving DecidableEq

/-- `classifyStep`: the branch structure of the tick callback (lines 312–351),
expressed over `getExitInfo` — wrap takes priority, then the wall check,
else a normal step. -/
def classifyStep (axis : WrapAxis) (c : HexCoord) (d : Fin 6) : StepOutcome :=
  match getExitInfo axis c d with
  | some m => .Portal m
  | none =>
      if isValidPosition (getNextPosition c d) then .Normal else .Blocked

/-- The per-axis heading reflection tables `horizontalFlip`, `diagonal1Flip`,
`diagonal2Flip` (lines 326–343). -/
def flipTable (axis : WrapAxis) (d : Fin 6) : Fin 6 :=
  match axis, d.val with
  | .horizontal, 0 => 3
  | .horizontal, 1 => 2
  | .horizontal, 2 => 1
  | .horizontal, 3 => 0
  | .horizontal, 4 => 5
  | .horizontal, _ => 4
  | .diagonal1, 0 => 0
  | .diagonal1, 1 => 5
  | .diagonal1, 2 => 4
  | .diagonal1, 3 => 3
  | .diagonal1, 4 => 2
  | .diagonal1, _ => 1
  | .diagonal2, 0 => 4
  | .diagonal2, 1 => 3
  | .diagonal2, 2 => 2
  | .diagonal2, 3 => 1
  | .diagonal2, 4 => 0
  | .diagonal2, _ => 5

/-- The reflected-then-inverted heading used after a wrap:
`(flipTable axis d + 3) % 6` (line 345). -/
def reflectDir (axis : WrapAxis) (d : Fin 6) : Fin 6 :=
  ⟨((flipTable axis d).val + 3) % 6, Nat.mod_lt _ (by norm_num)⟩

/-- The list of integers from `lo` to `hi` inclusive (the source iterates
`for (let q = lo; q <= hi; q++)`). -/
def intRange (lo hi : Int) : List Int :=
  (List.range (hi + 1 - lo).toNat).map (fun (i : Nat) => lo + (i : Int))

/-- `getValidHexCells`: every on-board cell, enumerated as in the source:
`q` from `-R` to `R`, `r` from `max(-R, -q-R)` to `min(R, -q+R)`. -/
def getValidHexCells : List HexCoord :=
  (intRange (-GRID_RADIUS) GRID_RADIUS).flatMap (fun q =>
    (intRange (max (-GRID_RADIUS) (-q - GRID_RADIUS))
        (min GRID_RADIUS (-q + GRID_RADIUS))).map (fun r => ⟨q, r⟩))

/-- The faces `generateFood` considers: `[targetSide]` when given, else both. -/
def sidesToCheck (targetSide : Option Nat) : List Nat :=
  match targetSide with
  | some t => [t]
  | none => [0, 1]

/-- The candidate list built by `generateFood`: every `(cell, side)` with the
cell on-board, the side among the checked faces, and not occupied by the
snake. -/
def availablePositions (snake : List SnakeSegment) (targetSide : Option Nat) :
    List Food :=
  getValidHexCells.flatMap (fun cell =>
    (sidesToCheck targetSide).filterMap (fun side =>
      if isOnSnake cell side snake then none else some ⟨cell, side⟩))

/-- `generateFood`: the degenerate origin fallback when no candidate exists,
else the candidate at the random index (`Math.floor(Math.random() * n)`,
modelled as `choice % n`). -/
def generateFood (snake : List SnakeSegment) (targetSide : Option Nat)
    (choice : Nat) : Food :=
  let avail := availablePositions snake targetSide
  if avail.isEmpty then ⟨⟨0, 0⟩, 0⟩
  else avail.getD (choice % avail.length) ⟨⟨0, 0⟩, 0⟩

/-- The tail of the tick callback after the new head, its heading and the
`flipped` flag are known (lines 353–445): self-collision check, snake build,
post-wrap bookkeeping (immunity, food mirroring), eating check, tail drop. -/
def moveStep (axis : WrapAxis) (cW cE now : Nat) (prev : GameState)
    (newHead : SnakeSegment) (newDirection : Fin 6) (flipped : Bool) :
    GameState :=
  if isOnSnake newHead.cell newHead.side prev.snake then
    { prev with gameOver := true, isPlaying := false }
  else
    let newSnake := newHead :: prev.snake
    let newCurrentSide := if flipped then newHead.side else prev.currentSide
    let newWrapImmunity :=
      if flipped then 1
      else if prev.wrapImmunity > 0 then prev.wrapImmunity - 1
      else prev.wrapImmunity
    let newFood :=
      if flipped then
        let flippedFoodCoord := mirrorCoord axis prev.food.cell
        if isValidPosition flippedFoodCoord then
          (⟨flippedFoodCoord, newHead.side⟩ : Food)
        else generateFood newSnake (some newHead.side) cW
      else prev.food
    if isSameCoord newHead.cell prev.food.cell ∧ newHead.side = prev.food.side then
      { prev with
        snake := newSnake
        food := generateFood newSnake none cE
        score := prev.score + 10
        direction := newDirection
        currentSide := newCurrentSide
        eatEffect := some ⟨newHead.cell, now⟩
        wrapImmunity := newWrapImmunity }
    else
      { prev with
        snake := newSnake.dropLast
        food := newFood
        direction := newDirection
        currentSide := newCurrentSide
        wrapImmunity := newWrapImmunity }

/-- One step of the game loop (the `setInterval` body, lines 306–446).
`axis` is the session's fixed wrap pair; `cW` and `cE` are the random indices
consumed by the post-wrap and post-eat food respawns; `now` is the timestamp
recorded in the food-eaten event. -/
def tick (axis : WrapAxis) (cW cE now : Nat) (prev : GameState) : GameState :=
  let head := prev.snake.headI
  match getExitInfo axis head.cell prev.direction with
  | some wrapCoord =>
      moveStep axis cW cE now prev ⟨wrapCoord, 1 - head.side⟩
        (reflectDir axis prev.direction) true
  | none =>
      if isValidPosition (getNextPosition head.cell prev.direction) then
        moveStep axis cW cE now prev
          ⟨getNextPosition head.cell prev.direction, head.side⟩
          prev.direction false
      else { prev with gameOver := true, isPlaying := false }

/-- The new head segment a tick would install, when the step is not Blocked:
the wrap target on the opposite face after a portal crossing, else the
adjacent cell on the same face. -/
def newHeadSeg (axis : WrapAxis) (s : GameState) : Option SnakeSegment :=
  let head := s.snake.headI
  match getExitInfo axis head.cell s.direction with
  | some wrapCoord => some ⟨wrapCoord, 1 - head.side⟩
  | none =>
      if isValidPosition (getNextPosition head.cell s.direction) then
        some ⟨getNextPosition head.cell s.direction, head.side⟩
      else none

/-- Agreement of two states on every field except the post-wrap grace counter
`wrapImmunity`. -/
def agreeExceptGrace (a b : GameState) : Prop :=
  a.snake = b.snake ∧ a.food = b.food ∧ a.direction = b.direction ∧
  a.currentSide = b.currentSide ∧ a.score = b.score ∧
  a.gameOver = b.gameOver ∧ a.isPlaying = b.isPlaying ∧
  a.eatEffect = b.eatEffect

/-- The canonical 3-segment starting snake `{(0,0),(-1,0),(-2,0)}` on face 0. -/
def initSnake : List SnakeSegment :=
  [⟨⟨0, 0⟩, 0⟩, ⟨⟨-1, 0⟩, 0⟩, ⟨⟨-2, 0⟩, 0⟩]

/-- A running state about to eat: the starting snake with the food placed
directly ahead at `(1,0)` on face 0 (the spec §8 eating scenario). -/
def sampleEatState : GameState :=
  { snake := initSnake
    food := ⟨⟨1, 0⟩, 0⟩
    direction := 0
    currentSide := 0
    score := 0
    gameOver := false
    isPlaying := true
    eatEffect := none
    wrapImmunity := 0 }

/-- A snake occupying every on-board cell of face 1 together with the origin
of face 0: it saturates face 1 without covering every cell of both faces. -/
def fullSideSnake : List SnakeSegment :=
  (getValidHexCells.map (fun c => (⟨c, 1⟩ : SnakeSegment))) ++ [⟨⟨0, 0⟩, 0⟩]

/-! ## Helper lemmas -/

theorem mem_intRange {lo hi x : Int} :
    x ∈ intRange lo hi ↔ lo ≤ x ∧ x ≤ hi := by
  rw [intRange, List.mem_map]
  constructor
  · rintro ⟨i, hilt, rfl⟩
    rw [List.mem_range] at hilt
    omega
  · intro h
    refine ⟨(x - lo).toNat, ?_, ?_⟩
    · rw [List.mem_range]
      omega
    · omega

theorem mem_getValidHexCells {c : HexCoord} :
    c ∈ getValidHexCells ↔ isValidPosition c := by
  unfold getValidHexCells
  simp only [List.mem_flatMap, List.mem_map, mem_intRange]
  constructor
  · rintro ⟨q, hq, r, hr, rfl⟩
    simp only [isValidPosition, abs_le]
    omega
  · intro h
    simp only [isValidPosition, abs_le] at h
    exact ⟨c.q, by omega, c.r, by omega, rfl⟩

theorem mem_availablePositions {snake : List SnakeSegment}
    {ts : Option Nat} {f : Food} :
    f ∈ availablePositions snake ts ↔
      isValidPosition f.cell ∧ f.side ∈ sidesToCheck ts ∧
      ¬ isOnSnake f.cell f.side snake := by
  unfold availablePositions
  simp only [List.mem_flatMap, List.mem_filterMap]
  constructor
  · rintro ⟨cell, hc, side, hs, hf⟩
    by_cases h : isOnSnake cell side snake
    · rw [if_pos h] at hf
      cases hf
    · rw [if_neg h] at hf
      cases f
      cases hf
      exact ⟨mem_getValidHexCells.mp hc, hs, h⟩
  · rintro ⟨hc, hs, h⟩
    refine ⟨f.cell, mem_getValidHexCells.mpr hc, f.side, hs, ?_⟩
    rw [if_neg h]

theorem mirrorCoord_mirrorCoord (axis : WrapAxis) (c : HexCoord) :
    mirrorCoord axis (mirrorCoord axis c) = c := by
  cases c
  cases axis <;> simp [mirrorCoord]

theorem getExitInfo_eq_none_of_valid (axis : WrapAxis) {c : HexCoord}
    {d : Fin 6} (h : isValidPosition (getNextPosition c d)) :
    getExitInfo axis c d = none := by
  unfold getExitInfo
  simp [h]

/-! ## Claim theorems -/

/-- C1: the cell `(15, -15)` is on-board and lies on the `q = R` edge of the
horizontal wrap axis, heading `RIGHT` steps off-board from it, yet the Portal
outcome's mirrored cell — the axis mirror `(-15, -15)` nudged once toward the
origin to `(-14, -14)` — is still off-board (`|q + r| = 28 > 15`), so the
single center-ward nudge fails to keep portal targets on-board. -/
theorem portalTarget_offBoard_at_corner :
    isValidPosition (⟨15, -15⟩ : HexCoord) ∧
    isWrapExit .horizontal ⟨15, -15⟩ ∧
    ¬ isValidPosition (getNextPosition ⟨15, -15⟩ 0) ∧
    getExitInfo .horizontal ⟨15, -15⟩ 0 = some ⟨-14, -14⟩ ∧
    ¬ isValidPosition (⟨-14, -14⟩ : HexCoord) := by decide

/-- C2: `classifyStep` returns `Normal` exactly when the next cell is
on-board; when the next cell is off-board it returns `Portal` with the wrap
target exactly when the current cell satisfies an edge predicate of the
session's wrap axis, and `Blocked` exactly otherwise. -/
theorem classifyStep_characterization (axis : WrapAxis) (c : HexCoord)
    (d : Fin 6) :
    (classifyStep axis c d = .Normal ↔
      isValidPosition (getNextPosition c d)) ∧
    (¬ isValidPosition (getNextPosition c d) →
      (classifyStep axis c d = .Portal (wrapTarget axis c) ↔
        isWrapExit axis c) ∧
      (classifyStep axis c d = .Blocked ↔ ¬ isWrapExit axis c)) := by
  unfold classifyStep getExitInfo
  by_cases hv : isValidPosition (getNextPosition c d)
  · simp [hv]
  · by_cases hw : isWrapExit axis c <;> simp [hv, hw]

/-- C4 counterexample: for the horizontal axis the reflected-then-inverted
heading map does have a fixed point — heading `0` (RIGHT) reflects to `3` and
inverts back to `0` — so the three composite maps are not all fixed-point
free. -/
theorem reflectDir_horizontal_fixed_point :
    reflectDir .horizontal 0 = 0 ∧
    ¬ (∀ axis : WrapAxis, ∀ d : Fin 6, reflectDir axis d ≠ d) := by decide

/-- C4 (amended): each of the three heading-reflection tables is a permutation
of the six headings; the reflected-then-inverted composite has no fixed point
for `diagonal1` and `diagonal2`, while for `horizontal` it fixes exactly the
headings `0` (RIGHT) and `3` (LEFT). -/
theorem flipTable_perm_and_fixed_points :
    (∀ axis : WrapAxis, Function.Bijective (flipTable axis)) ∧
    (∀ d : Fin 6, reflectDir .diagonal1 d ≠ d) ∧
    (∀ d : Fin 6, reflectDir .diagonal2 d ≠ d) ∧
    (∀ d : Fin 6, reflectDir .horizontal d = d ↔ d = 0 ∨ d = 3) := by decide

/-- C5: the axis-keyed mirror transform computes `(-q, r)` for the horizontal
axis, `(q, -r)` for diagonal1 and `(-r, -q)` for diagonal2, on every cell. -/
theorem mirrorCoord_formulas (c : HexCoord) :
    mirrorCoord .horizontal c = ⟨-c.q, c.r⟩ ∧
    mirrorCoord .diagonal1 c = ⟨c.q, -c.r⟩ ∧
    mirrorCoord .diagonal2 c = ⟨-c.r, -c.q⟩ :=
  ⟨rfl, rfl, rfl⟩

/-- C8: wherever neither application triggers the center-ward nudge — the
mirror of `c` is on-board (first application) and `c` itself is on-board
(second application, since the mirror is an involution) — applying the full
portal transform twice returns the original cell. -/
theorem wrapTarget_involution (axis : WrapAxis) (c : HexCoord)
    (h1 : isValidPosition (mirrorCoord axis c)) (h2 : isValidPosition c) :
    wrapTarget axis (wrapTarget axis c) = c := by
  have e1 : wrapTarget axis c = mirrorCoord axis c := by
    unfold wrapTarget
    simp [h1]
  rw [e1]
  unfold wrapTarget
  rw [mirrorCoord_mirrorCoord]
  simp [h2]

/-- C8 witness: the involution at the concrete on-board cell `(3, 2)` whose
horizontal mirror `(-3, 2)` is also on-board. -/
theorem wrapTarget_involution_witness :
    wrapTarget .horizontal (wrapTarget .horizontal ⟨3, 2⟩) = ⟨3, 2⟩ :=
  wrapTarget_involution .horizontal ⟨3, 2⟩ (by decide) (by decide)

/-- C6: when the head's next cell is off-board and the head is not on a
wrap-exit cell of the active axis, the tick returns the pre-tick state with
only the lifecycle flags changed (game over). -/
theorem tick_blocked_frame (axis : WrapAxis) (cW cE now : Nat) (s : GameState)
    (hnv : ¬ isValidPosition (getNextPosition (s.snake.headI).cell s.direction))
    (hnw : ¬ isWrapExit axis (s.snake.headI).cell) :
    tick axis cW cE now s = { s with gameOver := true, isPlaying := false } := by
  have hex : getExitInfo axis (s.snake.headI).cell s.direction = none := by
    unfold getExitInfo
    simp [hnv, hnw]
  simp only [tick, hex]
  rw [if_neg hnv]

/-- C6 witness: a wall hit with the diagonal1 axis active — the head at
`(15, 0)` heading RIGHT steps to the off-board `(16, 0)` from a cell that is
not on the `r = ±15` edges — flips only the lifecycle flags. -/
theorem tick_blocked_frame_witness :
    tick .diagonal1 0 0 0
      { snake := [⟨⟨15, 0⟩, 0⟩, ⟨⟨14, 0⟩, 0⟩, ⟨⟨13, 0⟩, 0⟩]
        food := ⟨⟨5, 5⟩, 0⟩
        direction := 0
        currentSide := 0
        score := 0
        gameOver := false
        isPlaying := true
        eatEffect := none
        wrapImmunity := 0 } =
      { snake := [⟨⟨15, 0⟩, 0⟩, ⟨⟨14, 0⟩, 0⟩, ⟨⟨13, 0⟩, 0⟩]
        food := ⟨⟨5, 5⟩, 0⟩
        direction := 0
        currentSide := 0
        score := 0
        gameOver := true
        isPlaying := false
        eatEffect := none
        wrapImmunity := 0 } :=
  tick_blocked_frame .diagonal1 0 0 0 _ (by decide) (by decide)

/-- C10: when the head's next cell is on-board and coincides, on the head's
face, with the snake's last segment, the tick ends the game: self-collision
is checked against the entire pre-move body, including the tail that a
non-eating move would vacate this very step. -/
theorem tick_tail_collision (axis : WrapAxis) (cW cE now : Nat) (s : GameState)
    (hval : isValidPosition (getNextPosition (s.snake.headI).cell s.direction))
    (htail : s.snake.getLast? =
      some ⟨getNextPosition (s.snake.headI).cell s.direction,
        (s.snake.headI).side⟩) :
    tick axis cW cE now s = { s with gameOver := true, isPlaying := false } := by
  have hex := getExitInfo_eq_none_of_valid axis hval
  have hmem : (⟨getNextPosition (s.snake.headI).cell s.direction,
      (s.snake.headI).side⟩ : SnakeSegment) ∈ s.snake := by
    obtain ⟨hne, heq⟩ := List.mem_getLast?_eq_getLast (Option.mem_def.mpr htail)
    rw [heq]
    exact List.getLast_mem hne
  have hcol : isOnSnake (getNextPosition (s.snake.headI).cell s.direction)
      (s.snake.headI).side s.snake := ⟨_, hmem, ⟨rfl, rfl⟩, rfl⟩
  simp only [tick, hex]
  rw [if_pos hval]
  simp only [moveStep]
  rw [if_pos hcol]

/-- C10 witness: a two-segment snake whose head at the origin steps right
onto its own tail at `(1, 0)` and dies. -/
theorem tick_tail_collision_witness :
    tick .diagonal1 0 0 0
      { snake := [⟨⟨0, 0⟩, 0⟩, ⟨⟨1, 0⟩, 0⟩]
        food := ⟨⟨5, 5⟩, 0⟩
        direction := 0
        currentSide := 0
        score := 0
        gameOver := false
        isPlaying := true
        eatEffect := none
        wrapImmunity := 0 } =
      { snake := [⟨⟨0, 0⟩, 0⟩, ⟨⟨1, 0⟩, 0⟩]
        food := ⟨⟨5, 5⟩, 0⟩
        direction := 0
        currentSide := 0
        score := 0
        gameOver := true
        isPlaying := false
        eatEffect := none
        wrapImmunity := 0 } :=
  tick_tail_collision .diagonal1 0 0 0 _ (by decide) (by decide)

/-- Score and length bookkeeping of the shared move tail: eating the pre-tick
food adds 10 points and one segment; a non-eating, non-colliding move keeps
both unchanged. -/
theorem moveStep_score_length (axis : WrapAxis) (cW cE now : Nat)
    (s : GameState) (newHead : SnakeSegment) (nd : Fin 6) (flipped : Bool)
    (hfood : ¬ isOnSnake s.food.cell s.food.side s.snake) :
    ((isSameCoord newHead.cell s.food.cell ∧ newHead.side = s.food.side) →
      (moveStep axis cW cE now s newHead nd flipped).score = s.score + 10 ∧
      (moveStep axis cW cE now s newHead nd flipped).snake.length =
        s.snake.length + 1) ∧
    (¬ (isSameCoord newHead.cell s.food.cell ∧ newHead.side = s.food.side) →
      ¬ isOnSnake newHead.cell newHead.side s.snake →
      (moveStep axis cW cE now s newHead nd flipped).score = s.score ∧
      (moveStep axis cW cE now s newHead nd flipped).snake.length =
        s.snake.length) := by
  by_cases hcol : isOnSnake newHead.cell newHead.side s.snake
  · constructor
    · rintro ⟨hc, hs⟩
      rw [isSameCoord_iff_eq] at hc
      rw [hc, hs] at hcol
      exact absurd hcol hfood
    · intro _ hncol
      exact absurd hcol hncol
  · simp only [moveStep]
    rw [if_neg hcol]
    by_cases heat : isSameCoord newHead.cell s.food.cell ∧
        newHead.side = s.food.side
    · rw [if_pos heat]
      constructor
      · intro _
        exact ⟨rfl, by simp⟩
      · intro hne _
        exact absurd heat hne
    · rw [if_neg heat]
      constructor
      · intro h
        exact absurd h heat
      · intro _ _
        refine ⟨rfl, ?_⟩
        simp [List.length_dropLast]

/-- C3: in any running state whose food does not sit on the snake (the data
model invariant at placement), a tick whose new head lands on the food's
`(cell, face)` scores `+10` and grows the snake by one segment, and a
non-eating, non-fatal tick leaves score and length unchanged. -/
theorem tick_score_and_length (axis : WrapAxis) (cW cE now : Nat)
    (s : GameState) (nh : SnakeSegment)
    (hfood : ¬ isOnSnake s.food.cell s.food.side s.snake)
    (hnh : newHeadSeg axis s = some nh) :
    ((isSameCoord nh.cell s.food.cell ∧ nh.side = s.food.side) →
      (tick axis cW cE now s).score = s.score + 10 ∧
      (tick axis cW cE now s).snake.length = s.snake.length + 1) ∧
    (¬ (isSameCoord nh.cell s.food.cell ∧ nh.side = s.food.side) →
      ¬ isOnSnake nh.cell nh.side s.snake →
      (tick axis cW cE now s).score = s.score ∧
      (tick axis cW cE now s).snake.length = s.snake.length) := by
  unfold newHeadSeg at hnh
  cases hex : getExitInfo axis (s.snake.headI).cell s.direction with
  | some w =>
      simp only [hex] at hnh
      simp only [Option.some.injEq] at hnh
      subst hnh
      simp only [tick, hex]
      exact moveStep_score_length axis cW cE now s ⟨w, 1 - s.snake.headI.side⟩
        (reflectDir axis s.direction) true hfood
  | none =>
      simp only [hex] at hnh
      by_cases hv : isValidPosition (getNextPosition (s.snake.headI).cell
          s.direction)
      · rw [if_pos hv] at hnh
        simp only [Option.some.injEq] at hnh
        subst hnh
        simp only [tick, hex]
        rw [if_pos hv]
        exact moveStep_score_length axis cW cE now s
          ⟨getNextPosition s.snake.headI.cell s.direction, s.snake.headI.side⟩
          s.direction false hfood
      · rw [if_neg hv] at hnh
        cases hnh

/-- C3 witness: the spec §8 eating scenario — the starting snake with food at
`(1, 0)` on face 0 gains 10 points and one segment in one tick. -/
theorem tick_score_and_length_witness :
    (tick .diagonal1 0 0 0 sampleEatState).score = sampleEatState.score + 10 ∧
    (tick .diagonal1 0 0 0 sampleEatState).snake.length =
      sampleEatState.snake.length + 1 :=
  (tick_score_and_length .diagonal1 0 0 0 sampleEatState ⟨⟨1, 0⟩, 0⟩
    (by decide) (by decide)).1 (by decide)

/-- The move tail treats the pre-move grace counter as write-only: two runs
differing only in it agree on every other field afterwards. -/
theorem moveStep_grace (axis : WrapAxis) (cW cE now : Nat) (s : GameState)
    (newHead : SnakeSegment) (nd : Fin 6) (flipped : Bool) (a b : Nat) :
    agreeExceptGrace
      (moveStep axis cW cE now { s with wrapImmunity := a } newHead nd flipped)
      (moveStep axis cW cE now { s with wrapImmunity := b } newHead nd
        flipped) := by
  unfold moveStep agreeExceptGrace
  by_cases hcol : isOnSnake newHead.cell newHead.side s.snake
  · simp [hcol]
  · simp only [hcol]
    split_ifs <;> simp_all

/-- C9: two running states that differ only in the wrapGrace counter (0
versus 1) produce, under a tick with the same random choices and timestamp,
post-states that agree on every field other than wrapGrace — the counter is
set and decremented but never consulted. -/
theorem tick_wrapGrace_noninterference (axis : WrapAxis) (cW cE now : Nat)
    (s : GameState) :
    agreeExceptGrace
      (tick axis cW cE now { s with wrapImmunity := 0 })
      (tick axis cW cE now { s with wrapImmunity := 1 }) := by
  simp only [tick]
  cases hex : getExitInfo axis (s.snake.headI).cell s.direction with
  | some w =>
      simp only [hex]
      exact moveStep_grace axis cW cE now s ⟨w, 1 - s.snake.headI.side⟩
        (reflectDir axis s.direction) true 0 1
  | none =>
      simp only [hex]
      by_cases hv : isValidPosition (getNextPosition (s.snake.headI).cell
          s.direction)
      · rw [if_pos hv, if_pos hv]
        exact moveStep_grace axis cW cE now s
          ⟨getNextPosition s.snake.headI.cell s.direction, s.snake.headI.side⟩
          s.direction false 0 1
      · rw [if_neg hv, if_neg hv]
        exact ⟨rfl, rfl, rfl, rfl, rfl, rfl, rfl, rfl⟩

/-- C7 (amended): `generateFood` returns the degenerate origin fallback
exactly when the candidate set it enumerates is empty; whenever a candidate
exists the result is a candidate, hence never occupied by the given snake.
(For an unrestricted call the candidate set is nonempty exactly when the
snake does not cover every on-board cell on both faces; for a restricted
call, when it does not cover every cell of the requested face.) -/
theorem generateFood_spec (snake : List SnakeSegment) (ts : Option Nat)
    (choice : Nat) :
    (availablePositions snake ts = [] →
      generateFood snake ts choice = ⟨⟨0, 0⟩, 0⟩) ∧
    (availablePositions snake ts ≠ [] →
      generateFood snake ts choice ∈ availablePositions snake ts ∧
      ¬ isOnSnake (generateFood snake ts choice).cell
        (generateFood snake ts choice).side snake) := by
  constructor
  · intro h
    unfold generateFood
    rw [h]
    rfl
  · intro h
    have hlen : 0 < (availablePositions snake ts).length := List.length_pos.mpr h
    have hmem : generateFood snake ts choice ∈ availablePositions snake ts := by
      unfold generateFood
      rw [if_neg (by simpa [List.isEmpty_iff] using h)]
      have hidx : choice % (availablePositions snake ts).length <
          (availablePositions snake ts).length := Nat.mod_lt _ hlen
      rw [List.getD_eq_getElem _ _ hidx]
      exact List.getElem_mem hidx
    exact ⟨hmem, (mem_availablePositions.mp hmem).2.2⟩

/-- Every on-board cell of face 1 is occupied by `fullSideSnake`. -/
theorem sideOne_covered (c : HexCoord) (hc : isValidPosition c) :
    isOnSnake c 1 fullSideSnake :=
  ⟨⟨c, 1⟩,
    List.mem_append_left _ (List.mem_map_of_mem _ (mem_getValidHexCells.mpr hc)),
    ⟨rfl, rfl⟩, rfl⟩

/-- C7 counterexample: `fullSideSnake` leaves cells free (it does not cover
every on-board cell on both faces — `(1, 0)` on face 0 is free), yet the
restricted call `generateFood fullSideSnake (some 1)` enumerates an empty
candidate set and returns the origin fallback `((0,0), face 0)`, which the
snake occupies. -/
theorem generateFood_restricted_returns_occupied :
    (∃ f : Food, isValidPosition f.cell ∧ (f.side = 0 ∨ f.side = 1) ∧
      ¬ isOnSnake f.cell f.side fullSideSnake) ∧
    generateFood fullSideSnake (some 1) 0 = ⟨⟨0, 0⟩, 0⟩ ∧
    isOnSnake ⟨0, 0⟩ 0 fullSideSnake := by
  refine ⟨⟨⟨⟨1, 0⟩, 0⟩, by decide, Or.inl rfl, ?_⟩, ?_, ?_⟩
  · rintro ⟨seg, hmem, hco, hside⟩
    rcases List.mem_append.mp hmem with hm | hm
    · obtain ⟨c, _, rfl⟩ := List.mem_map.mp hm
      cases hside
    · rw [List.mem_singleton] at hm
      subst hm
      exact absurd hco.1 (by decide)
  · have hempty : availablePositions fullSideSnake (some 1) = [] := by
      rw [List.eq_nil_iff_forall_not_mem]
      intro f hf
      rw [mem_availablePositions] at hf
      obtain ⟨hc, hs, hno⟩ := hf
      simp only [sidesToCheck, List.mem_singleton] at hs
      exact hno (hs ▸ sideOne_covered f.cell hc)
    unfold generateFood
    rw [hempty]
    rfl
  · exact ⟨⟨⟨0, 0⟩, 0⟩, List.mem_append_right _ (List.mem_singleton_self _),
      ⟨rfl, rfl⟩, rfl⟩

end HexSnake
